import Mathlib

/-!
Verification development for the med-plastic-bot repository (a Telegram
chatbot for a medical clinic).  Python code is shallowly embedded: Python
strings become lists of Unicode code points (`PyStr`), `datetime.date`
becomes `PyDate`, handlers become pure step functions on an explicit
dialogue state and form-data record, and the effectful transport layer is
modelled by passing the outcome of every send attempt as an oracle.
-/

namespace MedPlastic

/-- A Python string: the list of its Unicode code points. -/
abbrev PyStr := List Char

/-- Coerce a Lean string literal to the `PyStr` model. -/
def toPy (s : String) : PyStr := s.toList

/-- The ASCII whitespace characters removed by Python `str.strip()` /
split by `str.split()` (tab, newline, vertical tab, form feed, carriage
return, space).  Exotic Unicode whitespace is outside the inputs this
program handles. -/
def pyIsSpace (c : Char) : Bool :=
  c = ' ' || c = '\t' || c = '\n' || c = '\x0d' ||
  c = Char.ofNat 11 || c = Char.ofNat 12

/-- Python `str.strip()`: drop leading and trailing whitespace. -/
def pyStrip (s : PyStr) : PyStr :=
  ((s.dropWhile pyIsSpace).reverse.dropWhile pyIsSpace).reverse

/-- Python `str.lower()` on one character, for the alphabets this bot
uses: ASCII letters, the Cyrillic range А..Я and Ё.  Other characters are
unchanged. -/
def pyLowerChar (c : Char) : Char :=
  if 'A' ≤ c ∧ c ≤ 'Z' then Char.ofNat (c.toNat + 32)
  else if 0x410 ≤ c.toNat ∧ c.toNat ≤ 0x42F then Char.ofNat (c.toNat + 0x20)
  else if c.toNat = 0x401 then Char.ofNat 0x451
  else c

/-- Python `str.lower()`. -/
def pyLower (s : PyStr) : PyStr := s.map pyLowerChar

/-- `listStartsWith p s` is true when `p` is an initial segment of `s`
(Python `str.startswith`). -/
def listStartsWith : PyStr → PyStr → Bool
  | [], _ => true
  | _ :: _, [] => false
  | p :: ps, c :: cs => p = c && listStartsWith ps cs

/-- Python `suffix in s` is `containsSub suffix s`: `pat` occurs as a
contiguous substring of `s`. -/
def containsSub : PyStr → PyStr → Bool
  | pat, [] => pat.isEmpty
  | pat, c :: t => listStartsWith pat (c :: t) || containsSub pat t

/-- Python `str.endswith` for the `PyStr` model. -/
def pyEndsWith (suf s : PyStr) : Bool :=
  listStartsWith suf.reverse s.reverse

/-- Index of the first occurrence of the substring `pat` in `s`, if any. -/
def findSubIdx (pat : PyStr) : PyStr → Option Nat
  | [] => if pat.isEmpty then some 0 else none
  | c :: t =>
    if listStartsWith pat (c :: t) then some 0
    else (findSubIdx pat t).map (· + 1)

/-- Fuelled worker for `pySplit`. -/
def pySplitAux (sep : PyStr) : Nat → PyStr → List PyStr
  | 0, s => [s]
  | fuel + 1, s =>
    match findSubIdx sep s with
    | none => [s]
    | some i => s.take i :: pySplitAux sep fuel (s.drop (i + sep.length))

/-- Python `str.split(sep)` for a non-empty separator `sep`: split at
every non-overlapping occurrence, keeping empty pieces.  Each split step
consumes at least one character, so `s.length + 1` fuel is enough. -/
def pySplit (sep s : PyStr) : List PyStr := pySplitAux sep (s.length + 1) s

/-- Fuelled worker for `pySplitWs`. -/
def pySplitWsAux : Nat → PyStr → List PyStr
  | 0, _ => []
  | _ + 1, [] => []
  | fuel + 1, c :: t =>
    if pyIsSpace c then pySplitWsAux fuel t
    else ((c :: t).takeWhile (fun x => !pyIsSpace x)) ::
      pySplitWsAux fuel ((c :: t).dropWhile (fun x => !pyIsSpace x))

/-- Python `str.split()` with no argument: split on runs of whitespace,
discarding empty pieces. -/
def pySplitWs (s : PyStr) : List PyStr := pySplitWsAux (s.length + 1) s

/-- Python `str.rfind(ch)` for a single character: the index of the last
occurrence, or `-1` when absent. -/
def pyRfind (ch : Char) : PyStr → Int
  | [] => -1
  | c :: t =>
    let r := pyRfind ch t
    if 0 ≤ r then r + 1 else if c = ch then 0 else -1

/-- A Python `datetime.date`. -/
structure PyDate where
  year : Nat
  month : Nat
  day : Nat
deriving DecidableEq, Repr

/-- Python date comparison `a <= b` (lexicographic on year, month, day). -/
def PyDate.ble (a b : PyDate) : Bool :=
  a.year < b.year ||
  (a.year = b.year && (a.month < b.month ||
    (a.month = b.month && a.day ≤ b.day)))

/-- Gregorian leap-year rule used by `datetime`. -/
def isLeap (y : Nat) : Bool :=
  y % 4 = 0 && (y % 100 ≠ 0 || y % 400 = 0)

/-- Number of days in a month, as enforced by the `datetime.date`
constructor. -/
def daysInMonth (y m : Nat) : Nat :=
  if m = 2 then (if isLeap y then 29 else 28)
  else if m = 4 ∨ m = 6 ∨ m = 9 ∨ m = 11 then 30
  else 31

/-- Numeric value of a digit string. -/
def digitsToNat (s : PyStr) : Nat :=
  s.foldl (fun acc c => acc * 10 + (c.toNat - 48)) 0

/-- The `%d` directive of `strptime`: one or two digits with value 1..31
(pattern `3[01]|[12]\d|0[1-9]|[1-9]`). -/
def parseDay (s : PyStr) : Option Nat :=
  if s ≠ [] ∧ s.length ≤ 2 ∧ s.all Char.isDigit ∧
      1 ≤ digitsToNat s ∧ digitsToNat s ≤ 31 then some (digitsToNat s) else none

/-- The `%m` directive of `strptime`: one or two digits with value 1..12
(pattern `1[0-2]|0[1-9]|[1-9]`). -/
def parseMonth (s : PyStr) : Option Nat :=
  if s ≠ [] ∧ s.length ≤ 2 ∧ s.all Char.isDigit ∧
      1 ≤ digitsToNat s ∧ digitsToNat s ≤ 12 then some (digitsToNat s) else none

/-- The `%Y` (exactly four digits) and `%y` (exactly two digits, 0..68
mapping to 2000..2068 and 69..99 to 1969..1999) directives of
`strptime`. -/
def parseYear (fourDigit : Bool) (s : PyStr) : Option Nat :=
  if fourDigit then
    if s.length = 4 ∧ s.all Char.isDigit then some (digitsToNat s) else none
  else
    if s.length = 2 ∧ s.all Char.isDigit then
      some (if digitsToNat s ≤ 68 then 2000 + digitsToNat s
            else 1900 + digitsToNat s)
    else none

/-- `datetime.strptime(s, fmt).date()` for the formats the bot uses:
day, month and year separated by the literal `sep` (`.` or `-`), with a
four- or two-digit year.  The day, month and year lexemes contain only
digits, so splitting at the separator is equivalent to the backtracking
regex `strptime` compiles.  Construction fails (as `datetime.date` does)
when the day exceeds the month length or the year is 0. -/
def strptimeDate (s : PyStr) (sep : Char) (fourDigitYear : Bool) : Option PyDate :=
  match pySplit [sep] s with
  | [ds, ms, ys] =>
    match parseDay ds, parseMonth ms, parseYear fourDigitYear ys with
    | some d, some m, some y =>
      if 1 ≤ y ∧ d ≤ daysInMonth y m then some ⟨y, m, d⟩ else none
    | _, _, _ => none
  | _ => none

/-- The format list `('%d.%m.%Y', '%d.%m.%y', '%d-%m-%Y', '%d-%m-%y')`
from `process_date`, as separator/four-digit-year pairs, in source
order. -/
def dateFormats : List (Char × Bool) :=
  [('.', true), ('.', false), ('-', true), ('-', false)]

/-!  src/utils/message_splitter.py  -/

/-- Inner word loop of `split_message` (lines 53-57 of
message_splitter.py): forcibly chop a word into `maxLength`-sized pieces
while it is longer than `maxLength`.  (With `maxLength = 0` the Python
loop would not terminate; the claims only concern positive lengths.) -/
def chopWord (maxLength : Nat) (w : PyStr) : List PyStr × PyStr :=
  if h : 0 < maxLength ∧ maxLength < w.length then
    let r := chopWord maxLength (w.drop maxLength)
    (w.take maxLength :: r.1, r.2)
  else ([], w)
termination_by w.length
decreasing_by
  simp only [List.length_drop]
  omega

/-- One iteration of the word loop of `split_message` (lines 47-59).
State is (emitted parts, `temp_sentence`). -/
def splitWordStep (maxLength : Nat) (st : List PyStr × PyStr) (word : PyStr) :
    List PyStr × PyStr :=
  let parts := st.1
  let temp := st.2
  if temp.length + word.length + 1 > maxLength then
    if temp ≠ [] then (parts ++ [pyStrip temp], word)
    else
      let c := chopWord maxLength word
      (parts ++ c.1, c.2)
  else (parts, temp ++ (if temp ≠ [] then [' '] else []) ++ word)

/-- One iteration of the sentence loop of `split_message` (lines 29-62).
State is (emitted parts, `current_part`). -/
def splitSentenceStep (maxLength : Nat) (st : List PyStr × PyStr)
    (sentence0 : PyStr) : List PyStr × PyStr :=
  let parts := st.1
  let current := st.2
  let s1 := pyStrip sentence0
  if s1 = [] then (parts, current)
  else
    let s2 := if !pyEndsWith ['.'] s1 then s1 ++ ['.'] else s1
    if current.length + s2.length + 2 > maxLength then
      if current ≠ [] then (parts ++ [pyStrip current], s2)
      else (pySplitWs s2).foldl (splitWordStep maxLength) (parts, [])
    else (parts, current ++ (if current ≠ [] then [' '] else []) ++ s2)

/-- One iteration of the paragraph loop of `split_message` (lines
25-74). -/
def splitParagraphStep (maxLength : Nat) (st : List PyStr × PyStr)
    (paragraph : PyStr) : List PyStr × PyStr :=
  let parts := st.1
  let current := st.2
  if paragraph.length > maxLength then
    (pySplit (toPy ". ") paragraph).foldl (splitSentenceStep maxLength)
      (parts, current)
  else
    if current.length + paragraph.length + 2 > maxLength then
      if current ≠ [] then (parts ++ [pyStrip current], paragraph)
      else (parts ++ [paragraph.take maxLength], paragraph.drop maxLength)
    else (parts, current ++ (if current ≠ [] then toPy "\n\n" else []) ++ paragraph)

/-- `split_message(text, max_length)` from src/utils/message_splitter.py:
split a long outgoing message into parts, by paragraphs, then sentences,
then words. -/
def split_message (text : PyStr) (maxLength : Nat) : List PyStr :=
  if text.length ≤ maxLength then [text]
  else
    let st := (pySplit (toPy "\n\n") text).foldl (splitParagraphStep maxLength)
      ([], [])
    if st.2 ≠ [] then st.1 ++ [pyStrip st.2] else st.1

/-- The truncation notice appended by `truncate_message` (line 109 of
message_splitter.py). -/
def truncate_suffix : PyStr := toPy "...\n\n(ответ сокращен для отображения в Telegram)"

/-- `truncate_message(text, max_length)` from
src/utils/message_splitter.py: cut `text` to `max_length` characters,
prefer ending at the last sentence end when it is less than 100
characters from the cut, and append a fixed truncation notice. -/
def truncate_message (text : PyStr) (maxLength : Nat) : PyStr :=
  if text.length ≤ maxLength then text
  else
    let truncated := text.take maxLength
    let lastEnd : Int :=
      max (pyRfind '.' truncated) (max (pyRfind '!' truncated) (pyRfind '?' truncated))
    let truncated2 :=
      if lastEnd > (maxLength : Int) - 100 then truncated.take (lastEnd + 1).toNat
      else truncated
    truncated2 ++ truncate_suffix

/-!  src/states/consultation.py and src/handlers/consultation_handlers.py  -/

/-- The `ConsultationStates` group from src/states/consultation.py.
`choosing_service` is declared in the source but never set by any
handler. -/
inductive ConsState where
  | choosing_service
  | entering_name
  | entering_phone
  | entering_date
  | entering_comment
deriving DecidableEq, Repr

/-- The per-user FSM form data accumulated by `state.update_data`.  A
`none` field models an absent (or `None`-valued) dictionary key. -/
structure FormData where
  service_id : Option Nat
  service_name : Option PyStr
  name : Option PyStr
  phone : Option PyStr
  preferred_date : Option PyDate
  date_input : Option PyStr
  comment : Option PyStr
deriving DecidableEq, Repr

/-- The empty form-data dictionary (as after `state.clear()`). -/
def emptyForm : FormData := ⟨none, none, none, none, none, none, none⟩

/-- A row of the `services` table, as far as the handlers read it. -/
structure ServiceRec where
  id : Nat
  name : PyStr
deriving DecidableEq, Repr

/-- A row of the `consultation_requests` table, as written by
`confirm_request`. -/
structure RequestRec where
  service_id : Nat
  name : PyStr
  phone : PyStr
  preferred_date : Option PyDate
  comment : PyStr
  status : PyStr
deriving DecidableEq, Repr

/-- The outgoing messages of the consultation handlers, abstracted to
tags (the Markdown texts themselves carry no state). -/
inductive ConsReply where
  | serviceNotFound
  | askName
  | nameTooShort
  | askPhone
  | phoneInvalid
  | askDate
  | dateInvalid
  | askComment
  | confirmationShown
  | requestCreated
  | requestError
  | cancelledMsg
  | servicesMenu
  | servicesUnavailable
deriving DecidableEq, Repr

/-- Result of running one consultation handler: the FSM state afterwards,
the form data afterwards, the replies sent, and the consultation request
created (if any). -/
structure StepResult where
  state : Option ConsState
  data : FormData
  replies : List ConsReply
  created : Option RequestRec
deriving DecidableEq, Repr

/-- `select_service` (consultation_handlers.py lines 16-39): look up the
service of the pressed inline button; if found, store its id and name
and set the state to `entering_name`.  The callback filter
`F.data.startswith("service_")` carries no state condition, so this
handler can run in any state. -/
def select_service (svc : Option ServiceRec) (sid : Nat) (s : Option ConsState)
    (d : FormData) : StepResult :=
  match svc with
  | none => ⟨s, d, [.serviceNotFound], none⟩
  | some sv =>
    ⟨some .entering_name,
     { d with service_id := some sid, service_name := some sv.name },
     [.askName], none⟩

/-- `process_name` (lines 42-62), registered for state `entering_name`:
accept any stripped text of length at least 2. -/
def process_name (text : PyStr) (d : FormData) : StepResult :=
  let name := pyStrip text
  if name.length < 2 then ⟨some .entering_name, d, [.nameTooShort], none⟩
  else ⟨some .entering_phone, { d with name := some name }, [.askPhone], none⟩

/-- Removal of spaces, hyphens and parentheses, as the three chained
`str.replace` calls of `process_phone` line 74 do. -/
def removeSHP (s : PyStr) : PyStr :=
  s.filter (fun c => !(c = ' ' || c = '-' || c = '(' || c = ')'))

/-- The core of the pattern `^(\+7|8)\d{10}$`: a `+7` or `8` followed by
exactly ten digits. -/
def phoneCore : PyStr → Bool
  | '+' :: '7' :: rest => rest.length = 10 && rest.all Char.isDigit
  | '8' :: rest => rest.length = 10 && rest.all Char.isDigit
  | _ => false

/-- Python `re.match(r'^(\+7|8)\d{10}$', s)`: the anchor `$` also matches
just before a single trailing newline. -/
def phoneRegexMatch (s : PyStr) : Bool :=
  phoneCore s || (pyEndsWith ['\n'] s && phoneCore s.dropLast)

/-- `process_phone` (lines 65-94), registered for state `entering_phone`:
strip the text, validate it with the regex after removing spaces, hyphens
and parentheses, normalise a leading `8` of the stripped text to `+7`,
store the result and move to `entering_date`; otherwise re-prompt and
change nothing. -/
def process_phone (text : PyStr) (d : FormData) : StepResult :=
  let phone := pyStrip text
  if phoneRegexMatch (removeSHP phone) then
    let phone2 := if listStartsWith ['8'] phone then '+' :: '7' :: phone.drop 1
      else phone
    ⟨some .entering_date, { d with phone := some phone2 }, [.askDate], none⟩
  else ⟨some .entering_phone, d, [.phoneInvalid], none⟩

/-- The literal any-time phrases of `process_date` line 103. -/
def anyTimePhrases : List PyStr :=
  [toPy "удобно в любое время", toPy "любое время", toPy "когда удобно"]

/-- The format loop of `process_date` (lines 107-115): the first format
that parses the input to a date not before `today`, if any. -/
def findAcceptedDate (today : PyDate) (s : PyStr) : Option PyDate :=
  (dateFormats.filterMap (fun fb =>
    match strptimeDate s fb.1 fb.2 with
    | some pd => if PyDate.ble today pd then some pd else none
    | none => none)).head?

/-- `process_date` (lines 97-147), registered for state `entering_date`:
accept a lower-cased any-time phrase with no stored date, or an input
parsing under one of the four formats to a date not before today;
otherwise re-prompt and change nothing. -/
def process_date (today : PyDate) (text : PyStr) (d : FormData) : StepResult :=
  let date_input := pyStrip text
  if anyTimePhrases.contains (pyLower date_input) then
    ⟨some .entering_comment,
     { d with preferred_date := none, date_input := some date_input },
     [.askComment], none⟩
  else
    match findAcceptedDate today date_input with
    | some pd =>
      ⟨some .entering_comment,
       { d with preferred_date := some pd, date_input := some date_input },
       [.askComment], none⟩
    | none => ⟨some .entering_date, d, [.dateInvalid], none⟩

/-- `skip_comment` (lines 150-154), registered for state
`entering_comment` and text `Пропустить`: store an empty comment and show
the confirmation (the state is not changed by `show_confirmation`). -/
def skip_comment (d : FormData) : StepResult :=
  ⟨some .entering_comment, { d with comment := some [] },
   [.confirmationShown], none⟩

/-- `process_comment` (lines 157-162), registered for state
`entering_comment`: store the stripped comment and show the
confirmation. -/
def process_comment (text : PyStr) (d : FormData) : StepResult :=
  ⟨some .entering_comment, { d with comment := some (pyStrip text) },
   [.confirmationShown], none⟩

/-- `confirm_request` (lines 186-262), registered for callback data
`confirm_request` with no state condition.  The handler succeeds — and
only then calls `state.clear()` — when the user row exists (a missing
user makes `UserRepository.create` raise, since it accepts no `phone`
keyword) and the form data holds `service_id`, `name` and `phone` (a
missing key raises `KeyError`); any exception is caught and leaves state
and data untouched.  A missing `service_name` key raises only after the
request row is inserted and the state cleared. -/
def confirm_request (userExists : Bool) (s : Option ConsState) (d : FormData) :
    StepResult :=
  if userExists && d.service_id.isSome && d.name.isSome && d.phone.isSome then
    ⟨none, emptyForm,
     [if d.service_name.isSome then ConsReply.requestCreated else ConsReply.requestError],
     some ⟨d.service_id.getD 0, d.name.getD [], d.phone.getD [],
           d.preferred_date, d.comment.getD [], toPy "new"⟩⟩
  else ⟨s, d, [.requestError], none⟩

/-- `cancel_consultation` (lines 265-275): clear the state and data in
any state. -/
def cancel_consultation (_s : Option ConsState) (_d : FormData) : StepResult :=
  ⟨none, emptyForm, [.cancelledMsg], none⟩

/-- `start_consultation` (lines 278-301): clear the state and show the
service menu (or an apology when no services exist). -/
def start_consultation (services : List ServiceRec) : StepResult :=
  ⟨none, emptyForm,
   [if services.isEmpty then ConsReply.servicesUnavailable else ConsReply.servicesMenu],
   none⟩

/-- Environment a consultation event runs in: the services table and
whether the calling user already has a row in `users`, plus today's
date. -/
structure Env where
  lookup : Nat → Option ServiceRec
  services : List ServiceRec
  userExists : Bool
  today : PyDate

/-- Events of the consultation flow, as discriminated by the aiogram
filters of consultation_handlers.py. -/
inductive ConsEvent where
  | selectService (sid : Nat)
  | confirm
  | cancel
  | startBooking
  | message (text : PyStr)

/-- Dispatch of one consultation event to the handler whose filters
match, per the `@router` registrations of consultation_handlers.py:
callback events carry no state filter; message handlers only fire in
their registered state. -/
def consultationStep (env : Env) (s : Option ConsState) (d : FormData) :
    ConsEvent → StepResult
  | .selectService sid => select_service (env.lookup sid) sid s d
  | .confirm => confirm_request env.userExists s d
  | .cancel => cancel_consultation s d
  | .startBooking => start_consultation env.services
  | .message t =>
    match s with
    | some .entering_name => process_name t d
    | some .entering_phone => process_phone t d
    | some .entering_date => process_date env.today t d
    | some .entering_comment =>
      if t = toPy "Пропустить" then skip_comment d else process_comment t d
    | _ => ⟨s, d, [], none⟩

/-- Position of a state in the claimed linear order service selection →
name → phone → date → comment. -/
def stateRank : Option ConsState → Nat
  | none => 0
  | some .choosing_service => 0
  | some .entering_name => 1
  | some .entering_phone => 2
  | some .entering_date => 3
  | some .entering_comment => 4

/-- Successor in the linear order (the comment step leads to the
confirmation message, not to a new state). -/
def nextState : Option ConsState → Option ConsState
  | some .entering_name => some .entering_phone
  | some .entering_phone => some .entering_date
  | some .entering_date => some .entering_comment
  | s => s

/-!  src/utils/message_handler.py  -/

/-- What one `message.answer` attempt does: succeed, or raise one of the
exception classes `safe_send_message` distinguishes. -/
inductive SendOutcome where
  | ok
  | retryAfter (secs : Nat)
  | networkError
  | badRequest (tooLong : Bool)
  | otherError
deriving DecidableEq, Repr

/-- Observable result of `safe_send_message`: the returned boolean, the
number of `message.answer` calls made, and the `asyncio.sleep` durations
in order. -/
structure SendResult where
  ok : Bool
  sends : Nat
  sleeps : List Nat
deriving DecidableEq, Repr

/-- The retry loop of `safe_send_message` (message_handler.py lines
29-66), with `max_retries = 3` and `retry_delay = 1`.  `left` counts the
loop iterations still available, `attempt` is the Python loop variable,
`calls` indexes the outcome oracle by send attempt.  A
`TelegramRetryAfter` sleeps the server-given delay and consumes an
attempt; a `TelegramNetworkError` sleeps `2 ^ attempt` before the next
attempt and returns `False` on the last one; a too-long
`TelegramBadRequest` on a text over 4000 characters makes one extra
attempt with a shortened text; every other exception returns `False`. -/
def safe_send_aux (textLen : Nat) (out : Nat → SendOutcome) :
    Nat → Nat → Nat → List Nat → SendResult
  | 0, _, calls, sleeps => ⟨false, calls, sleeps⟩
  | left + 1, attempt, calls, sleeps =>
    match out calls with
    | .ok => ⟨true, calls + 1, sleeps⟩
    | .retryAfter secs =>
      safe_send_aux textLen out left (attempt + 1) (calls + 1) (sleeps ++ [secs])
    | .networkError =>
      if attempt < 2 then
        safe_send_aux textLen out left (attempt + 1) (calls + 1)
          (sleeps ++ [2 ^ attempt])
      else ⟨false, calls + 1, sleeps⟩
    | .badRequest tooLong =>
      if tooLong && decide (textLen > 4000) then
        match out (calls + 1) with
        | .ok => ⟨true, calls + 2, sleeps⟩
        | _ => ⟨false, calls + 2, sleeps⟩
      else ⟨false, calls + 1, sleeps⟩
    | .otherError => ⟨false, calls + 1, sleeps⟩

/-- `safe_send_message` for a text of length `textLen`, with the outcome
of the i-th send attempt given by `out i`. -/
def safe_send_message (textLen : Nat) (out : Nat → SendOutcome) : SendResult :=
  safe_send_aux textLen out 3 0 0 []

/-!  src/services/openai_service.py and src/handlers/basic_handlers.py  -/

/-- The `faq_responses` table of `FallbackService` (openai_service.py
lines 158-194), in insertion order: keyword, candidate replies. -/
def faq_responses : List (PyStr × List PyStr) :=
  [(toPy "привет",
    [toPy "Здравствуйте! Рад помочь вам с вопросами о наших услугах. Что вас интересует?",
     toPy "Добрый день! Я здесь, чтобы рассказать о нашей клинике. Чем могу быть полезна?",
     toPy "Приветствую! Готова ответить на ваши вопросы о пластической хирургии."]),
   (toPy "понимаешь",
    [toPy "Да, я прекрасно понимаю вас! Я здесь, чтобы помочь и ответить на все вопросы.",
     toPy "Конечно, понимаю! Могу рассказать о наших услугах или ответить на другие вопросы.",
     toPy "Да, понимаю! Чем могу помочь сегодня?"]),
   (toPy "цена",
    [toPy "Стоимость зависит от конкретной процедуры и индивидуальных особенностей. Давайте обсудим на бесплатной консультации?",
     toPy "Цены варьируются в зависимости от объема работы. Могу предложить записаться на консультацию для точного расчета.",
     toPy "У нас индивидуальный подход к ценообразованию. Хотите узнать подробнее о конкретной услуге?"]),
   (toPy "риск",
    [toPy "Все процедуры проводятся опытными хирургами с минимизацией рисков. Расскажу подробнее на консультации!",
     toPy "Безопасность - наш приоритет. Используем современные методики с минимальными осложнениями.",
     toPy "Риски есть у любой процедуры, но мы их минимизируем благодаря опыту наших специалистов."]),
   (toPy "заразиться",
    [toPy "Инфекции крайне редки благодаря строгим стандартам стерильности и современному оборудованию. Наша клиника соответствует всем нормам безопасности.",
     toPy "Благодаря современным протоколам и стерильным условиям риск инфекции минимален. Мы уделяем этому особое внимание.",
     toPy "Инфекционные осложнения составляют менее 1% благодаря нашему опыту и современным методикам."]),
   (toPy "консультация",
    [toPy "Консультация у нас бесплатная! Запишитесь в удобное время, и врач все подробно расскажет.",
     toPy "Да, мы предлагаем бесплатную первичную консультацию. Когда вам было бы удобно прийти?",
     toPy "Консультация бесплатная и ни к чему не обязывает. Звоните для записи!"]),
   (toPy "длительность",
    [toPy "Процедура обычно занимает 1-2 часа в зависимости от сложности. Реабилитация короткая.",
     toPy "Время зависит от конкретной процедуры, но в среднем 1-2 часа. Хотите узнать подробнее?",
     toPy "Большинство процедур занимают до 2 часов. После потребуется неделя на восстановление."])]

/-- The `general_responses` of `FallbackService.get_fallback_response`
(lines 207-212), used when no keyword occurs in the message. -/
def general_responses : List PyStr :=
  [toPy "Это интересный вопрос! Лучше всего обсудить это лично на консультации с нашим специалистом.",
   toPy "Понимаю ваш интерес к этой теме. Могу предложить бесплатную консультацию для детальной информации.",
   toPy "Хороший вопрос! Для точной информации рекомендую консультацию с нашим врачом.",
   toPy "Давайте обсудим это на консультации? Специалист сможет дать исчерпывающую информацию."]

/-- The candidate pool `random.choice` draws from in
`get_fallback_response` (lines 196-215): the replies of the first keyword
(in insertion order) occurring in the lower-cased message, else the
general replies. -/
def get_fallback_pool (message : PyStr) : List PyStr :=
  match faq_responses.find? (fun kv => containsSub kv.1 (pyLower message)) with
  | some kv => kv.2
  | none => general_responses

/-- `FallbackService.get_fallback_response`, with `random.choice`
abstracted as the function `choose` (any function satisfying
`choose l ∈ l` for non-empty `l` models it). -/
def get_fallback_response (choose : List PyStr → PyStr) (message : PyStr) : PyStr :=
  choose (get_fallback_pool message)

/-- The static apology hard-coded in `handle_text_message`
(basic_handlers.py lines 329-331). -/
def apologyText : PyStr :=
  toPy "Понимаю ваш вопрос. Чтобы дать вам точную информацию, \nпожалуйста, выберите конкретную тему из главного меню или \nсвяжитесь с живым менеджером для детальной консультации."

/-- Python falsiness of an optional string (`if not response:`): absent
or empty. -/
def pyFalsy : Option PyStr → Bool
  | none => true
  | some s => s.isEmpty

/-- The fallback chain of `handle_text_message` (lines 320-331): the LLM
answer if non-falsy, else the keyword fallback, else the static apology.
`llm` is the value `openai_service.generate_response` returned. -/
def handle_text_response (llm : Option PyStr) (choose : List PyStr → PyStr)
    (text : PyStr) : PyStr :=
  let r1 := llm
  let r2 := if pyFalsy r1 then some (get_fallback_response choose text) else r1
  if pyFalsy r2 then apologyText else r2.getD []

/-- Observable effect of `handle_text_message`: the message parts sent,
whether the LLM was called, whether a chat-log row was written. -/
structure TextMsgEffect where
  replies : List PyStr
  llmCalled : Bool
  logged : Bool
deriving DecidableEq, Repr

/-- `handle_text_message` (basic_handlers.py lines 276-347): with an
active FSM state it returns at once (lines 281-283); otherwise it builds
the response through the fallback chain, splits it for transport and logs
the dialogue. -/
def handle_text_message (st : Option ConsState) (llm : Option PyStr)
    (choose : List PyStr → PyStr) (text : PyStr) : TextMsgEffect :=
  match st with
  | some _ => ⟨[], false, false⟩
  | none =>
    let response := handle_text_response llm choose text
    ⟨split_message response 4096, true, true⟩

/-!  src/models/database.py and src/models/repositories.py  -/

/-- The `__tablename__`s declared in src/models/database.py, in source
order. -/
def tableNames : List PyStr :=
  [toPy "users", toPy "services", toPy "consultation_requests",
   toPy "chat_logs", toPy "faq"]

/-- The repository classes of src/models/repositories.py, each paired
with the table of the model it wraps. -/
def repositoryTables : List (PyStr × PyStr) :=
  [(toPy "UserRepository", toPy "users"),
   (toPy "ServiceRepository", toPy "services"),
   (toPy "ConsultationRequestRepository", toPy "consultation_requests"),
   (toPy "ChatLogRepository", toPy "chat_logs"),
   (toPy "FAQRepository", toPy "faq")]

/-!  Spec-side criteria (phrased from the claim wording, for comparison
with the handler code). -/

/-- The acceptance criterion of claim C5 exactly as worded: the input
with spaces, hyphens and parentheses removed matches
`^(\+7|8)\d{10}$`.  (The handler additionally strips surrounding
whitespace first.) -/
def spec_phone_accept (text : PyStr) : Bool :=
  phoneRegexMatch (removeSHP text)

/-- The acceptance criterion of claim C10 exactly as worded: the input is
one of the any-time phrases case-insensitively, or parses under one of
the four formats to a date not before today.  (The handler additionally
strips surrounding whitespace first.) -/
def spec_date_accept (today : PyDate) (text : PyStr) : Bool :=
  anyTimePhrases.contains (pyLower text) ||
  dateFormats.any (fun fb =>
    match strptimeDate text fb.1 fb.2 with
    | some pd => PyDate.ble today pd
    | none => false)

/-!  Helper lemmas. -/

lemma head?_isSome_filterMap {α β : Type} (f : α → Option β) :
    ∀ l : List α, (l.filterMap f).head?.isSome = l.any fun x => (f x).isSome := by
  intro l
  induction l with
  | nil => rfl
  | cons a t ih =>
    cases h : f a with
    | none => rw [List.filterMap_cons_none h, List.any_cons, h, ih]; rfl
    | some b => rw [List.filterMap_cons_some h, List.any_cons, h]; rfl

lemma any_eq_any {α : Type} (f g : α → Bool) (l : List α)
    (h : ∀ x, f x = g x) : l.any f = l.any g := by
  induction l with
  | nil => rfl
  | cons a t ih => simp [List.any_cons, h a, ih]

lemma findAcceptedDate_isSome (today : PyDate) (s : PyStr) :
    (findAcceptedDate today s).isSome = dateFormats.any (fun fb =>
      match strptimeDate s fb.1 fb.2 with
      | some pd => PyDate.ble today pd
      | none => false) := by
  unfold findAcceptedDate
  rw [head?_isSome_filterMap]
  apply any_eq_any
  intro fb
  cases h : strptimeDate s fb.1 fb.2 with
  | none => simp [h]
  | some pd => cases hb : PyDate.ble today pd <;> simp [h, hb]

lemma spec_date_accept_eq (today : PyDate) (s : PyStr) :
    spec_date_accept today s =
      (anyTimePhrases.contains (pyLower s) || (findAcceptedDate today s).isSome) := by
  unfold spec_date_accept
  rw [findAcceptedDate_isSome]

lemma pyRfind_lt_length (ch : Char) (s : PyStr) : pyRfind ch s < (s.length : Int) := by
  induction s with
  | nil => simp [pyRfind]
  | cons c t ih =>
    simp only [pyRfind, List.length_cons]
    split
    · push_cast
      omega
    · split <;> push_cast <;> omega

/-!  Claim theorems. -/

/-- C3: the claim says every part returned by `split_message` has length
at most `max_length`.  The code violates this: for the text
`"a. bbbbbbbb"` and `max_length = 5`, the second returned part is the
9-character `"bbbbbbbb."` — when an over-long sentence follows a
non-empty `current_part`, it is installed as the new `current_part`
without being length-checked and is later emitted whole.  This
contradicts the function's own docstring, which calls `max_length` the
maximal length of one part. -/
theorem C3_split_message_overlong_part :
    split_message (toPy "a. bbbbbbbb") 5 = [toPy "a.", toPy "bbbbbbbb."] ∧
    ∃ p ∈ split_message (toPy "a. bbbbbbbb") 5, 5 < p.length := by
  decide

/-- In the truncating branch, `truncate_message` returns a prefix of the
text of length at most `m` followed by the fixed notice. -/
lemma truncate_message_long (text : PyStr) (m : Nat) (h : m < text.length) :
    ∃ k, k ≤ m ∧ truncate_message text m = text.take k ++ truncate_suffix := by
  have hn : ¬ text.length ≤ m := by omega
  simp only [truncate_message, if_neg hn]
  have h1 := pyRfind_lt_length '.' (text.take m)
  have h2 := pyRfind_lt_length '!' (text.take m)
  have h3 := pyRfind_lt_length '?' (text.take m)
  have htk : (text.take m).length ≤ m := List.length_take_le m text
  have hmax : max (pyRfind '.' (text.take m))
      (max (pyRfind '!' (text.take m)) (pyRfind '?' (text.take m))) <
      ((text.take m).length : Int) :=
    max_lt h1 (max_lt h2 h3)
  have hc : ((text.take m).length : Int) ≤ (m : Int) := by exact_mod_cast htk
  generalize max (pyRfind '.' (text.take m))
    (max (pyRfind '!' (text.take m)) (pyRfind '?' (text.take m))) = L at hmax ⊢
  split
  · have hkm : (L + 1).toNat ≤ m := by
      rw [Int.toNat_le]
      omega
    refine ⟨(L + 1).toNat, hkm, ?_⟩
    rw [List.take_take, Nat.min_eq_left hkm]
  · exact ⟨m, le_refl m, rfl⟩

set_option maxRecDepth 20000 in
/-- C4 (counterexample): `truncate_message` is claimed to return at most
`max_length` characters, but it appends a 48-character notice after
cutting: 101 copies of `a` truncated to 100 yield 148 characters. -/
theorem C4_truncate_exceeds_max :
    (truncate_message (List.replicate 101 'a') 100).length = 148 ∧
    ¬(truncate_message (List.replicate 101 'a') 100).length ≤ 100 := by
  decide

/-- C4 (amended): when the text already fits it is returned unchanged;
otherwise the result is a prefix of the text of length at most
`max_length` followed by the fixed 48-character truncation notice, so its
length is at most `max_length + 48` (not `max_length`, as claimed). -/
theorem C4_truncate_bound_amended :
    ∀ (text : PyStr) (m : Nat),
      truncate_suffix.length = 48 ∧
      (text.length ≤ m → truncate_message text m = text) ∧
      (truncate_message text m).length ≤ m + 48 ∧
      (m < text.length →
        ∃ k, k ≤ m ∧ truncate_message text m = text.take k ++ truncate_suffix) := by
  intro text m
  have hsuf : truncate_suffix.length = 48 := by decide
  refine ⟨hsuf, ?_, ?_, truncate_message_long text m⟩
  · intro h
    simp [truncate_message, h]
  · by_cases h : text.length ≤ m
    · simp only [truncate_message, if_pos h]
      omega
    · obtain ⟨k, hk, heq⟩ := truncate_message_long text m (by omega)
      rw [heq, List.length_append, hsuf]
      have := List.length_take_le k text
      omega

/-- C4 (witness): the amended bound applied at a 101-character text with
limit 100. -/
theorem C4_truncate_bound_amended_witness :
    truncate_suffix.length = 48 ∧
    ((List.replicate 101 'a' : PyStr).length ≤ 100 →
      truncate_message (List.replicate 101 'a') 100 = List.replicate 101 'a') ∧
    (truncate_message (List.replicate 101 'a') 100).length ≤ 100 + 48 ∧
    (100 < (List.replicate 101 'a' : PyStr).length →
      ∃ k, k ≤ 100 ∧ truncate_message (List.replicate 101 'a') 100 =
        (List.replicate 101 'a' : PyStr).take k ++ truncate_suffix) :=
  C4_truncate_bound_amended (List.replicate 101 'a') 100

/-!  Message dispatch (src/main.py lines 79-80).  `main.py` includes
`basic_router` before `consultation_router`; aiogram 3 offers an update
to each router's handlers in that order and the first handler whose
filters match consumes it — a plain `return` inside the handler does not
pass the update on (only raising `SkipHandler` would, which no handler
does). -/

/-- The message handlers of both routers, in registration order.  The
`consult*` handlers are those of consultation_handlers.py. -/
inductive Dispatched where
  | basicStart
  | basicHelp
  | basicCancel
  | btnCancel
  | btnMainMenu
  | btnServiceInfo
  | btnPrices
  | btnContactManager
  | btnFaq
  | btnAboutClinic
  | questionHandler
  | consultName
  | consultPhone
  | consultDate
  | consultSkip
  | consultComment
  | consultStart
deriving DecidableEq, Repr

/-- The aiogram `Command`/`CommandStart` filter: the first
whitespace-separated token of the text is `/cmd` or `/cmd@bot`. -/
def commandFilter (cmd : PyStr) (text : PyStr) : Bool :=
  let tok := (pySplitWs text).headD []
  tok = '/' :: cmd || listStartsWith ('/' :: cmd ++ ['@']) tok

/-- Which handler consumes a text message: the filters of
basic_handlers.py in registration order, ending in the unfiltered
catch-all `handle_text_message` (line 276).  No filter of `basic_router`
consults the FSM state, and the catch-all matches everything, so dispatch
never reaches the state-filtered message handlers of
consultation_handlers.py. -/
def dispatchMessage (text : PyStr) : Dispatched :=
  if commandFilter (toPy "start") text then .basicStart
  else if commandFilter (toPy "help") text then .basicHelp
  else if commandFilter (toPy "cancel") text then .basicCancel
  else if text = toPy "❌ Отмена" then .btnCancel
  else if text = toPy "🔙 В главное меню" then .btnMainMenu
  else if text = toPy "📋 Узнать об услуге" then .btnServiceInfo
  else if text = toPy "💰 Цены" then .btnPrices
  else if text = toPy "👨‍💼 Связаться с менеджером" then .btnContactManager
  else if text = toPy "❓ Частые вопросы" then .btnFaq
  else if text = toPy "ℹ️ О клинике" then .btnAboutClinic
  else .questionHandler

/-- C7 (counterexample): the free-text message `Иван` sent while state
`entering_name` is active is consumed by the unfiltered question handler
`handle_text_message` — registered in `basic_router`, which main.py
includes before `consultation_router` — and never reaches the dialogue's
`process_name`; the question handler then returns at once.  So the
message is routed to the question handler, not to the active dialogue's
handler, refuting the claim's routing clause. -/
theorem C7_dispatch_counterexample :
    dispatchMessage (toPy "Иван") = Dispatched.questionHandler ∧
    Dispatched.questionHandler ≠ Dispatched.consultName ∧
    handle_text_message (some ConsState.entering_name) none (fun _ => [])
      (toPy "Иван") = ⟨[], false, false⟩ := by
  decide

/-- C7 (amended): a text message is never routed to the dialogue's
message handlers — the unfiltered question handler, registered first,
shadows them all; when a dialogue state is active the question handler
returns immediately, sending no reply, calling no LLM and writing no chat
log, so the message is silently dropped and the dialogue does not
advance. -/
theorem C7_dispatch_amended :
    (∀ text : PyStr,
      dispatchMessage text ∉
        [Dispatched.consultName, Dispatched.consultPhone,
         Dispatched.consultDate, Dispatched.consultSkip,
         Dispatched.consultComment, Dispatched.consultStart]) ∧
    (∀ (s : ConsState) (llm : Option PyStr) (choose : List PyStr → PyStr)
        (text : PyStr),
      handle_text_message (some s) llm choose text = ⟨[], false, false⟩) := by
  constructor
  · intro text
    unfold dispatchMessage
    repeat' split
    all_goals decide
  · intro s llm choose text
    rfl

/-- C7 (witness): the amended statement applied at the in-state message
`Иван`. -/
theorem C7_dispatch_amended_witness :
    dispatchMessage (toPy "Иван") ∉
      [Dispatched.consultName, Dispatched.consultPhone,
       Dispatched.consultDate, Dispatched.consultSkip,
       Dispatched.consultComment, Dispatched.consultStart] ∧
    handle_text_message (some ConsState.entering_name) none (fun _ => [])
      (toPy "Иван") = ⟨[], false, false⟩ :=
  ⟨C7_dispatch_amended.1 (toPy "Иван"),
   C7_dispatch_amended.2 ConsState.entering_name none (fun _ => []) (toPy "Иван")⟩

/-- C8 (counterexample): the persistence layer declares five tables, not
four — the `faq` table is the fifth. -/
theorem C8_five_tables_counterexample :
    tableNames.length = 5 ∧ ¬ tableNames.length = 4 ∧ toPy "faq" ∈ tableNames := by
  decide

/-- C8 (amended): the persistence layer consists of five relational
tables — users, services, consultation requests, chat logs, and FAQ —
each accessed through a repository wrapper. -/
theorem C8_tables_amended :
    tableNames.length = 5 ∧
    (∀ t ∈ tableNames, ∃ r ∈ repositoryTables, r.2 = t) ∧
    (∀ t ∈ [toPy "users", toPy "services", toPy "consultation_requests",
        toPy "chat_logs"], t ∈ tableNames) ∧
    toPy "faq" ∈ tableNames := by
  decide

/-- Generic attempt bound for the retry loop: each remaining loop
iteration adds at most one send, plus one final send, plus the one extra
shortened-text send a too-long bad request can cause. -/
lemma safe_send_aux_sends_le (textLen : Nat) (out : Nat → SendOutcome) :
    ∀ left attempt calls sleeps,
      (safe_send_aux textLen out left attempt calls sleeps).sends ≤ calls + left + 1 := by
  intro left
  induction left with
  | zero =>
    intro attempt calls sleeps
    simp [safe_send_aux]
  | succ n ih =>
    intro attempt calls sleeps
    simp only [safe_send_aux]
    split
    · show calls + 1 ≤ calls + (n + 1) + 1
      omega
    · rename_i secs _
      have := ih (attempt + 1) (calls + 1) (sleeps ++ [secs])
      omega
    · split
      · have := ih (attempt + 1) (calls + 1) (sleeps ++ [2 ^ attempt])
        omega
      · show calls + 1 ≤ calls + (n + 1) + 1
        omega
    · split
      · split
        · show calls + 2 ≤ calls + (n + 1) + 1
          omega
        · show calls + 2 ≤ calls + (n + 1) + 1
          omega
      · show calls + 1 ≤ calls + (n + 1) + 1
        omega
    · show calls + 1 ≤ calls + (n + 1) + 1
      omega

/-- When no send can fail with a too-long bad request (on a text over
4000 characters), the loop makes at most one send per iteration. -/
lemma safe_send_aux_sends_le_of_no_toolong (textLen : Nat) (out : Nat → SendOutcome)
    (h : ∀ i, out i = SendOutcome.badRequest true → textLen ≤ 4000) :
    ∀ left attempt calls sleeps,
      (safe_send_aux textLen out left attempt calls sleeps).sends ≤ calls + left := by
  intro left
  induction left with
  | zero =>
    intro attempt calls sleeps
    simp [safe_send_aux]
  | succ n ih =>
    intro attempt calls sleeps
    simp only [safe_send_aux]
    split
    · show calls + 1 ≤ calls + (n + 1)
      omega
    · rename_i secs _
      have := ih (attempt + 1) (calls + 1) (sleeps ++ [secs])
      omega
    · split
      · have := ih (attempt + 1) (calls + 1) (sleeps ++ [2 ^ attempt])
        omega
      · show calls + 1 ≤ calls + (n + 1)
        omega
    · rename_i tooLong hout
      have hsplit : (tooLong && decide (textLen > 4000)) = false := by
        cases tooLong with
        | false => rfl
        | true =>
          have := h calls hout
          simp only [Bool.true_and, decide_eq_false_iff_not]
          omega
      rw [hsplit]
      show calls + 1 ≤ calls + (n + 1)
      omega
    · show calls + 1 ≤ calls + (n + 1)
      omega

/-- The outcome sequence of the C6 counterexample: two transient network
errors, then a too-long bad request, then a successful send of the
shortened text. -/
def c6Outcomes : Nat → SendOutcome := fun i =>
  [SendOutcome.networkError, SendOutcome.networkError,
   SendOutcome.badRequest true, SendOutcome.ok].getD i SendOutcome.otherError

/-- C6 (counterexample): on a 4001-character text whose first two sends
hit network errors and whose third raises a too-long bad request,
`safe_send_message` makes a fourth send attempt (the shortened text) and
returns `True` from it — so it is not bounded by 3 send attempts, and it
can succeed outside the 3-attempt loop. -/
theorem C6_four_sends_counterexample :
    (safe_send_message 4001 c6Outcomes).sends = 4 ∧
    ¬(safe_send_message 4001 c6Outcomes).sends ≤ 3 ∧
    (safe_send_message 4001 c6Outcomes).ok = true := by
  decide

/-- C6 (amended): `safe_send_message` is a bounded retry loop of at most
3 attempts, plus at most one extra attempt with a shortened text after a
too-long bad request on a text over 4000 characters (hence at most 4
sends in total, and at most 3 when no such bad request occurs); it
returns `True` as soon as an attempt succeeds, sleeps `2 ^ attempt`
seconds (1s then 2s) between attempts failing with a transient network
error, and returns `False` once all attempts are exhausted. -/
theorem C6_retry_loop_amended :
    (∀ textLen out, (safe_send_message textLen out).sends ≤ 4) ∧
    (∀ textLen out, (∀ i, out i = SendOutcome.badRequest true → textLen ≤ 4000) →
      (safe_send_message textLen out).sends ≤ 3) ∧
    (∀ textLen out, out 0 = SendOutcome.ok →
      safe_send_message textLen out = ⟨true, 1, []⟩) ∧
    (∀ textLen out, out 0 = SendOutcome.networkError →
      out 1 = SendOutcome.networkError → out 2 = SendOutcome.ok →
      safe_send_message textLen out = ⟨true, 3, [1, 2]⟩) ∧
    (∀ textLen out, (∀ i, out i = SendOutcome.networkError) →
      safe_send_message textLen out = ⟨false, 3, [1, 2]⟩) := by
  refine ⟨?_, ?_, ?_, ?_, ?_⟩
  · intro textLen out
    exact safe_send_aux_sends_le textLen out 3 0 0 []
  · intro textLen out h
    exact safe_send_aux_sends_le_of_no_toolong textLen out h 3 0 0 []
  · intro textLen out h0
    simp [safe_send_message, safe_send_aux, h0]
  · intro textLen out h0 h1 h2
    simp [safe_send_message, safe_send_aux, h0, h1, h2]
  · intro textLen out h
    simp [safe_send_message, safe_send_aux, h 0, h 1, h 2]

/-- Outcome sequence with two network errors followed by a success. -/
def c6NetNetOk : Nat → SendOutcome := fun i =>
  [SendOutcome.networkError, SendOutcome.networkError, SendOutcome.ok].getD i
    SendOutcome.otherError

/-- C6 (witness): the amended bounds applied to concrete outcome
sequences. -/
theorem C6_retry_loop_amended_witness :
    (safe_send_message 4001 c6Outcomes).sends ≤ 4 ∧
    (safe_send_message 10 (fun _ => SendOutcome.networkError)).sends ≤ 3 ∧
    safe_send_message 10 (fun _ => SendOutcome.ok) = ⟨true, 1, []⟩ ∧
    safe_send_message 10 c6NetNetOk = ⟨true, 3, [1, 2]⟩ ∧
    safe_send_message 10 (fun _ => SendOutcome.networkError) = ⟨false, 3, [1, 2]⟩ :=
  ⟨C6_retry_loop_amended.1 4001 c6Outcomes,
   C6_retry_loop_amended.2.1 10 (fun _ => SendOutcome.networkError)
     (fun _ h => by cases h),
   C6_retry_loop_amended.2.2.1 10 (fun _ => SendOutcome.ok) rfl,
   C6_retry_loop_amended.2.2.2.1 10 c6NetNetOk rfl rfl rfl,
   C6_retry_loop_amended.2.2.2.2 10 (fun _ => SendOutcome.networkError)
     (fun _ => rfl)⟩

lemma faq_pools_sane :
    ∀ kv ∈ faq_responses, kv.2 ≠ [] ∧ ∀ p ∈ kv.2, p ≠ [] ∧ p ≠ apologyText := by
  decide

lemma general_pool_sane :
    general_responses ≠ [] ∧ ∀ p ∈ general_responses, p ≠ [] ∧ p ≠ apologyText := by
  decide

/-- Every candidate pool of the fallback service is non-empty, and none
of its entries is empty or equal to the handler's static apology. -/
lemma get_fallback_pool_sane (msg : PyStr) :
    get_fallback_pool msg ≠ [] ∧ ∀ p ∈ get_fallback_pool msg, p ≠ [] ∧ p ≠ apologyText := by
  unfold get_fallback_pool
  cases h : faq_responses.find? (fun kv => containsSub kv.1 (pyLower msg)) with
  | none => exact general_pool_sane
  | some kv =>
    have hmem : kv ∈ faq_responses := List.mem_of_find?_eq_some h
    exact faq_pools_sane kv hmem

/-- The first choice from a non-empty list, one concrete model of
`random.choice`. -/
def headChoice (l : List PyStr) : PyStr := l.headD []

lemma headChoice_mem : ∀ l : List PyStr, l ≠ [] → headChoice l ∈ l := by
  intro l hl
  cases l with
  | nil => exact absurd rfl hl
  | cons a t => simp [headChoice]

/-- C2 (counterexample): for the keyword-free question `Где вы
находитесь?` with the LLM unavailable, the reply is the first general
canned response of the fallback service, not the static apology the claim
names — `get_fallback_response` never returns nothing, so the apology
branch of the handler is unreachable. -/
theorem C2_apology_unreachable_counterexample :
    handle_text_response none headChoice (toPy "Где вы находитесь?") =
      toPy "Это интересный вопрос! Лучше всего обсудить это лично на консультации с нашим специалистом." ∧
    handle_text_response none headChoice (toPy "Где вы находитесь?") ≠ apologyText ∧
    (∀ kv ∈ faq_responses,
      containsSub kv.1 (pyLower (toPy "Где вы находитесь?")) = false) := by
  decide

/-- C2 (amended): when the LLM call fails or returns nothing, the reply
is the canned response chosen by keyword match over the message; when no
keyword of the fallback table occurs, the pool is the four general canned
responses of the fallback service — never the static apology hard-coded
in the handler, which is unreachable. -/
theorem C2_fallback_chain_amended :
    ∀ (llm : Option PyStr) (choose : List PyStr → PyStr) (text : PyStr),
      (∀ l : List PyStr, l ≠ [] → choose l ∈ l) →
      pyFalsy llm = true →
      (handle_text_response llm choose text = choose (get_fallback_pool text) ∧
       handle_text_response llm choose text ∈ get_fallback_pool text ∧
       ((∀ kv ∈ faq_responses, containsSub kv.1 (pyLower text) = false) →
         get_fallback_pool text = general_responses) ∧
       handle_text_response llm choose text ≠ apologyText) := by
  intro llm choose text hc hf
  have hpool := get_fallback_pool_sane text
  have hmem : choose (get_fallback_pool text) ∈ get_fallback_pool text :=
    hc _ hpool.1
  have hne : choose (get_fallback_pool text) ≠ [] := (hpool.2 _ hmem).1
  have hfls : pyFalsy (some (choose (get_fallback_pool text))) = false := by
    cases hx : choose (get_fallback_pool text) with
    | nil => exact absurd hx hne
    | cons a t => rfl
  have hres : handle_text_response llm choose text = choose (get_fallback_pool text) := by
    simp [handle_text_response, get_fallback_response, hf, hfls]
  refine ⟨hres, hres ▸ hmem, ?_, ?_⟩
  · intro hall
    unfold get_fallback_pool
    have hnone : faq_responses.find? (fun kv => containsSub kv.1 (pyLower text)) = none := by
      rw [List.find?_eq_none]
      intro kv hkv
      simp [hall kv hkv]
    rw [hnone]
  · rw [hres]
    exact (hpool.2 _ hmem).2

/-- C2 (witness): the amended statement applied to the keyword question
`цена` with the LLM unavailable and `random.choice` modelled by taking
the first candidate. -/
theorem C2_fallback_chain_amended_witness :
    handle_text_response none headChoice (toPy "цена") =
      headChoice (get_fallback_pool (toPy "цена")) ∧
    handle_text_response none headChoice (toPy "цена") ∈
      get_fallback_pool (toPy "цена") ∧
    ((∀ kv ∈ faq_responses, containsSub kv.1 (pyLower (toPy "цена")) = false) →
      get_fallback_pool (toPy "цена") = general_responses) ∧
    handle_text_response none headChoice (toPy "цена") ≠ apologyText :=
  C2_fallback_chain_amended none headChoice (toPy "цена") headChoice_mem rfl

/-- C5 (counterexample): for the input `"\t81234567890"` the handler
accepts (it strips the surrounding whitespace first), yet the input with
only spaces, hyphens and parentheses removed — the claim's criterion —
keeps the tab and does not match `^(\+7|8)\d{10}$`, so the claimed
if-and-only-if fails. -/
theorem C5_phone_strip_counterexample :
    (process_phone (toPy "\t81234567890") emptyForm).state =
      some ConsState.entering_date ∧
    spec_phone_accept (toPy "\t81234567890") = false := by
  decide

/-- C5 (amended): in state `entering_phone` an input is accepted if and
only if, after stripping surrounding whitespace and then removing spaces,
hyphens and parentheses, it matches `^(\+7|8)\d{10}$`; on a non-matching
input the handler re-prompts and leaves the state and the form data
unchanged. -/
theorem C5_phone_validation_amended :
    ∀ (text : PyStr) (d : FormData),
      ((process_phone text d).state = some ConsState.entering_date ↔
        spec_phone_accept (pyStrip text) = true) ∧
      (spec_phone_accept (pyStrip text) = false →
        process_phone text d =
          ⟨some ConsState.entering_phone, d, [ConsReply.phoneInvalid], none⟩) := by
  intro text d
  unfold process_phone spec_phone_accept
  by_cases h : phoneRegexMatch (removeSHP (pyStrip text)) = true
  · simp [h]
  · simp [h]

/-- C5 (witness): the amended statement applied at the rejected input
`"abc"`. -/
theorem C5_phone_validation_amended_witness :
    ((process_phone (toPy "abc") emptyForm).state = some ConsState.entering_date ↔
      spec_phone_accept (pyStrip (toPy "abc")) = true) ∧
    process_phone (toPy "abc") emptyForm =
      ⟨some ConsState.entering_phone, emptyForm, [ConsReply.phoneInvalid], none⟩ :=
  ⟨(C5_phone_validation_amended (toPy "abc") emptyForm).1,
   (C5_phone_validation_amended (toPy "abc") emptyForm).2 (by decide)⟩

/-- C9 (counterexample): the accepted input `"(+71234567890)"` is stored
verbatim — it does not begin with `+7` (its stripped text begins with a
parenthesis, so the `8`-rewrite does not fire), refuting the claim that
every stored phone begins with `+7`. -/
theorem C9_unnormalized_phone_counterexample :
    (process_phone (toPy "(+71234567890)") emptyForm).state =
      some ConsState.entering_date ∧
    (process_phone (toPy "(+71234567890)") emptyForm).data.phone =
      some (toPy "(+71234567890)") ∧
    listStartsWith (toPy "+7") (toPy "(+71234567890)") = false := by
  decide

/-- C9 (amended): an accepted input whose stripped text starts with `8`
is rewritten to `+7` followed by the rest of that text before being
stored, so the stored phone begins with `+7` whenever the stripped input
begins with `8` or with `+7`; an accepted input beginning otherwise
(e.g. with a parenthesis or hyphen) is stored verbatim and need not begin
with `+7`.  A created consultation request copies the stored phone
verbatim. -/
theorem C9_phone_normalization_amended :
    (∀ (text : PyStr) (d : FormData),
      (process_phone text d).state = some ConsState.entering_date →
      ((listStartsWith ['8'] (pyStrip text) = true →
        (process_phone text d).data.phone =
          some ('+' :: '7' :: (pyStrip text).drop 1)) ∧
       (listStartsWith (toPy "+7") (pyStrip text) = true ∨
          listStartsWith ['8'] (pyStrip text) = true →
        ∃ p, (process_phone text d).data.phone = some p ∧
          listStartsWith (toPy "+7") p = true))) ∧
    (∀ (userExists : Bool) (s : Option ConsState) (d : FormData) (r : RequestRec),
      (confirm_request userExists s d).created = some r →
      r.phone = d.phone.getD []) := by
  constructor
  · intro text d hacc
    unfold process_phone at hacc ⊢
    by_cases h : phoneRegexMatch (removeSHP (pyStrip text)) = true
    · simp only [h, if_true]
      constructor
      · intro h8
        simp [h8]
      · intro hor
        by_cases h8 : listStartsWith ['8'] (pyStrip text) = true
        · exact ⟨'+' :: '7' :: (pyStrip text).drop 1, by simp [h8], rfl⟩
        · have h7 : listStartsWith (toPy "+7") (pyStrip text) = true := by
            rcases hor with h7 | h8'
            · exact h7
            · exact absurd h8' h8
          refine ⟨pyStrip text, ?_, h7⟩
          simp at h8
          simp [h8]
    · simp [h] at hacc
  · intro userExists s d r hr
    unfold confirm_request at hr
    by_cases h : (userExists && d.service_id.isSome && d.name.isSome &&
        d.phone.isSome) = true
    · simp only [h, if_true] at hr
      cases hr
      rfl
    · simp only [h] at hr
      simp at hr

/-- C9 (witness): the amended statement applied at the accepted input
`"81234567890"` and at a confirmed booking with a complete form. -/
theorem C9_phone_normalization_amended_witness :
    ((listStartsWith ['8'] (pyStrip (toPy "81234567890")) = true →
      (process_phone (toPy "81234567890") emptyForm).data.phone =
        some ('+' :: '7' :: (pyStrip (toPy "81234567890")).drop 1)) ∧
     (listStartsWith (toPy "+7") (pyStrip (toPy "81234567890")) = true ∨
        listStartsWith ['8'] (pyStrip (toPy "81234567890")) = true →
      ∃ p, (process_phone (toPy "81234567890") emptyForm).data.phone = some p ∧
        listStartsWith (toPy "+7") p = true)) ∧
    (confirm_request true none
        ⟨some 1, some (toPy "Блефаропластика"), some (toPy "Иван"),
         some (toPy "+71234567890"), none, none, some []⟩).created.map
        (fun r => r.phone) = some (toPy "+71234567890") := by
  constructor
  · exact (C9_phone_normalization_amended.1 (toPy "81234567890") emptyForm (by decide))
  · have := C9_phone_normalization_amended.2 true none
      ⟨some 1, some (toPy "Блефаропластика"), some (toPy "Иван"),
       some (toPy "+71234567890"), none, none, some []⟩
      ⟨1, toPy "Иван", toPy "+71234567890", none, [], toPy "new"⟩ (by decide)
    decide

/-- C10 (counterexample): the input `"\tлюбое время"` is accepted by the
handler (which strips surrounding whitespace before the phrase check),
yet it is neither one of the literal phrases nor a parseable date, so by
the claim's wording it should have been re-prompted. -/
theorem C10_date_strip_counterexample :
    (process_date ⟨2026, 10, 12⟩ (toPy "\tлюбое время") emptyForm).state =
      some ConsState.entering_comment ∧
    spec_date_accept ⟨2026, 10, 12⟩ (toPy "\tлюбое время") = false := by
  decide

/-- C10 (amended): in state `entering_date`, the stripped input is
accepted iff it is one of the any-time phrases case-insensitively (then
no date is stored) or parses under one of the formats `%d.%m.%Y`,
`%d.%m.%y`, `%d-%m-%Y`, `%d-%m-%y` to a date not before today; every
other input re-prompts and leaves the state and the form data
unchanged. -/
theorem C10_date_validation_amended :
    ∀ (today : PyDate) (text : PyStr) (d : FormData),
      ((process_date today text d).state = some ConsState.entering_comment ↔
        spec_date_accept today (pyStrip text) = true) ∧
      (anyTimePhrases.contains (pyLower (pyStrip text)) = true →
        (process_date today text d).data.preferred_date = none) ∧
      (spec_date_accept today (pyStrip text) = false →
        process_date today text d =
          ⟨some ConsState.entering_date, d, [ConsReply.dateInvalid], none⟩) := by
  intro today text d
  rw [spec_date_accept_eq]
  unfold process_date
  by_cases hp : pyLower (pyStrip text) ∈ anyTimePhrases
  · simp [hp]
  · cases hf : findAcceptedDate today (pyStrip text) with
    | none => simp [hp, hf]
    | some pd => simp [hp, hf]

/-- C10 (witness): the amended statement applied at the phrase input
`"любое время"` and the rejected input `"позавчера"`. -/
theorem C10_date_validation_amended_witness :
    ((process_date ⟨2026, 10, 12⟩ (toPy "любое время") emptyForm).state =
        some ConsState.entering_comment ↔
      spec_date_accept ⟨2026, 10, 12⟩ (pyStrip (toPy "любое время")) = true) ∧
    (process_date ⟨2026, 10, 12⟩ (toPy "любое время") emptyForm).data.preferred_date = none ∧
    process_date ⟨2026, 10, 12⟩ (toPy "позавчера") emptyForm =
      ⟨some ConsState.entering_date, emptyForm, [ConsReply.dateInvalid], none⟩ :=
  ⟨(C10_date_validation_amended ⟨2026, 10, 12⟩ (toPy "любое время") emptyForm).1,
   (C10_date_validation_amended ⟨2026, 10, 12⟩ (toPy "любое время") emptyForm).2.1
     (by decide),
   (C10_date_validation_amended ⟨2026, 10, 12⟩ (toPy "позавчера") emptyForm).2.2
     (by decide)⟩

/-- A concrete service row for the C1 scenario. -/
def svcC1 : ServiceRec := ⟨1, toPy "Блефаропластика верхних век"⟩

/-- A concrete environment: one service, an existing user. -/
def envC1 : Env :=
  ⟨fun i => if i = 1 then some svcC1 else none, [svcC1], true, ⟨2026, 10, 12⟩⟩

/-- Form data as accumulated by the time the date step is reached. -/
def dC1 : FormData :=
  ⟨some 1, some svcC1.name, some (toPy "Иван"), some (toPy "+71234567890"),
   none, none, none⟩

/-- C1 (counterexample): pressing a (stale) service button while in state
`entering_date` runs `select_service` — whose callback filter carries no
state condition — and resets the state to `entering_name`, a backwards
move in the claimed linear order; so it is false that no handler of the
flow moves the state backwards. -/
theorem C1_select_service_backwards :
    (consultationStep envC1 (some ConsState.entering_date) dC1
      (ConsEvent.selectService 1)).state = some ConsState.entering_name ∧
    stateRank (some ConsState.entering_name) <
      stateRank (some ConsState.entering_date) := by
  decide

/-- C1 (amended): the booking dialogue is a linear five-step form in the
fixed order service selection, name, phone, date, comment, confirmation:
a successful service selection sets `entering_name`, a valid name sets
`entering_phone`, a valid phone sets `entering_date`, a valid date sets
`entering_comment`, a comment or pressing skip shows the confirmation,
and confirming or cancelling clears the state.  No message handler of the
flow moves the state backwards or skips a step: a message transition
leaves the state unchanged or advances it exactly one step, and the
confirm and cancel callbacks only keep or clear it.  The one backwards
mover is the service-selection callback handler, which carries no state
filter: it leaves the state unchanged (service not found) or sets
`entering_name`, from any state. -/
theorem C1_flow_linear_amended :
    (∀ (env : Env) (s : Option ConsState) (d : FormData) (sid : Nat)
        (sv : ServiceRec), env.lookup sid = some sv →
      (consultationStep env s d (ConsEvent.selectService sid)).state =
        some ConsState.entering_name) ∧
    (∀ (d : FormData) (text : PyStr), ¬(pyStrip text).length < 2 →
      (process_name text d).state = some ConsState.entering_phone) ∧
    (∀ (d : FormData) (text : PyStr),
        phoneRegexMatch (removeSHP (pyStrip text)) = true →
      (process_phone text d).state = some ConsState.entering_date) ∧
    (∀ (today : PyDate) (d : FormData) (text : PyStr),
        spec_date_accept today (pyStrip text) = true →
      (process_date today text d).state = some ConsState.entering_comment) ∧
    (∀ d : FormData, (skip_comment d).state = some ConsState.entering_comment ∧
      (skip_comment d).replies = [ConsReply.confirmationShown]) ∧
    (∀ (d : FormData) (text : PyStr),
      (process_comment text d).state = some ConsState.entering_comment ∧
      (process_comment text d).replies = [ConsReply.confirmationShown]) ∧
    (∀ (s : Option ConsState) (d : FormData),
        d.service_id.isSome = true → d.name.isSome = true →
        d.phone.isSome = true →
      (confirm_request true s d).state = none) ∧
    (∀ (s : Option ConsState) (d : FormData),
      (cancel_consultation s d).state = none) ∧
    (∀ (env : Env) (s : Option ConsState) (d : FormData) (t : PyStr),
      (consultationStep env s d (ConsEvent.message t)).state = s ∨
      (consultationStep env s d (ConsEvent.message t)).state = nextState s) ∧
    (∀ (env : Env) (s : Option ConsState) (d : FormData) (sid : Nat),
      (consultationStep env s d (ConsEvent.selectService sid)).state = s ∨
      (consultationStep env s d (ConsEvent.selectService sid)).state =
        some ConsState.entering_name) ∧
    (∀ (env : Env) (s : Option ConsState) (d : FormData),
      (consultationStep env s d ConsEvent.confirm).state = s ∨
      (consultationStep env s d ConsEvent.confirm).state = none) ∧
    (∀ (env : Env) (s : Option ConsState) (d : FormData),
      (consultationStep env s d ConsEvent.cancel).state = none ∧
      (consultationStep env s d ConsEvent.startBooking).state = none) := by
  refine ⟨?_, ?_, ?_, ?_, ?_, ?_, ?_, ?_, ?_, ?_, ?_, ?_⟩
  · intro env s d sid sv h
    simp [consultationStep, select_service, h]
  · intro d text h
    simp [process_name, h]
  · intro d text h
    simp [process_phone, h]
  · intro today d text h
    rw [spec_date_accept_eq] at h
    unfold process_date
    by_cases hp : pyLower (pyStrip text) ∈ anyTimePhrases
    · simp [hp]
    · cases hf : findAcceptedDate today (pyStrip text) with
      | none => simp [hp, hf] at h
      | some pd => simp [hp, hf]
  · intro d
    exact ⟨rfl, rfl⟩
  · intro d text
    exact ⟨rfl, rfl⟩
  · intro s d h1 h2 h3
    simp [confirm_request, h1, h2, h3]
  · intro s d
    rfl
  · intro env s d t
    cases s with
    | none =>
      left
      rfl
    | some cs =>
      cases cs with
      | choosing_service =>
        left
        rfl
      | entering_name =>
        by_cases hn : (pyStrip t).length < 2
        · left
          simp [consultationStep, process_name, hn]
        · right
          simp [consultationStep, process_name, hn, nextState]
      | entering_phone =>
        by_cases hph : phoneRegexMatch (removeSHP (pyStrip t)) = true
        · right
          simp [consultationStep, process_phone, hph, nextState]
        · left
          simp [consultationStep, process_phone, hph]
      | entering_date =>
        by_cases hp : pyLower (pyStrip t) ∈ anyTimePhrases
        · right
          simp [consultationStep, process_date, hp, nextState]
        · cases hf : findAcceptedDate env.today (pyStrip t) with
          | none =>
            left
            simp [consultationStep, process_date, hp, hf]
          | some pd =>
            right
            simp [consultationStep, process_date, hp, hf, nextState]
      | entering_comment =>
        by_cases ht : t = toPy "Пропустить"
        · left
          simp [consultationStep, ht, skip_comment]
        · left
          simp [consultationStep, ht, process_comment]
  · intro env s d sid
    cases hv : env.lookup sid with
    | none =>
      left
      simp [consultationStep, select_service, hv]
    | some sv =>
      right
      simp [consultationStep, select_service, hv]
  · intro env s d
    by_cases hc : (env.userExists && d.service_id.isSome && d.name.isSome &&
        d.phone.isSome) = true
    · right
      simp [consultationStep, confirm_request, hc]
    · left
      simp [consultationStep, confirm_request, hc]
  · intro env s d
    exact ⟨rfl, rfl⟩

/-- C1 (witness): the amended statement traversed on a concrete happy
path — service selection, the name `Иван`, the phone `+71234567890`, the
date `15.10.2026`, and a confirmed booking. -/
theorem C1_flow_linear_amended_witness :
    (consultationStep envC1 none emptyForm (ConsEvent.selectService 1)).state =
      some ConsState.entering_name ∧
    (process_name (toPy "Иван") emptyForm).state = some ConsState.entering_phone ∧
    (process_phone (toPy "+71234567890") emptyForm).state =
      some ConsState.entering_date ∧
    (process_date ⟨2026, 10, 12⟩ (toPy "15.10.2026") emptyForm).state =
      some ConsState.entering_comment ∧
    (skip_comment dC1).state = some ConsState.entering_comment ∧
    (confirm_request true (some ConsState.entering_comment) dC1).state = none ∧
    (cancel_consultation (some ConsState.entering_comment) dC1).state = none :=
  ⟨C1_flow_linear_amended.1 envC1 none emptyForm 1 svcC1 (by decide),
   C1_flow_linear_amended.2.1 emptyForm (toPy "Иван") (by decide),
   C1_flow_linear_amended.2.2.1 emptyForm (toPy "+71234567890") (by decide),
   C1_flow_linear_amended.2.2.2.1 ⟨2026, 10, 12⟩ emptyForm (toPy "15.10.2026")
     (by decide),
   (C1_flow_linear_amended.2.2.2.2.1 dC1).1,
   C1_flow_linear_amended.2.2.2.2.2.2.1 (some ConsState.entering_comment) dC1
     (by decide) (by decide) (by decide),
   C1_flow_linear_amended.2.2.2.2.2.2.2.1 (some ConsState.entering_comment) dC1⟩

end MedPlastic
